import Mathlib

/-
Verification of the AI-Agent fitness-advisor repository.

Shallow embedding of the decision core:
  - src/fitness_advisor.py : FitnessAdvisorAgent (construction, analyze_health_status,
    response parsing, rule-based fallback)
  - src/api_server.py : FallbackAdvisor, the /recommend field-filling step, /batch

Modelling conventions:
  - Python ints are Int, Python floats are Rat (only order comparisons matter),
    Python str is String, Python dict is an association list List (String × Json)
    in insertion order (real dicts have no duplicate keys).
  - Timestamps (datetime.now) are passed in as an explicit String parameter.
  - The external chat-completion call is an oracle value of type Except String String:
    ok carries the reply text, error any raised exception's message.
  - json.loads (Python standard library, not repository code) is an oracle parameter
    of type String → Except String (List (String × Json)); on this code path a
    successful parse of a slice that starts at a brace is always a JSON object,
    so only object results are reachable, and an error models json.JSONDecodeError.
  - The openai client constructor, given any string api key, does not raise; the
    repository relies on this (app.py and fitness_advisor.py construct the agent
    with dummy keys for fallback mode), so construction is modelled as succeeding
    for every string key whenever the library is importable.
  - Python float formatting inside the interpolated alert message is rendered with
    Lean's toString; no claim depends on the digit rendering.
-/

set_option autoImplicit false

/-- Json values, as produced by parsing a model reply; objects keep field order. -/
inductive Json where
  | null : Json
  | bool : Bool → Json
  | num  : Rat → Json
  | str  : String → Json
  | arr  : List Json → Json
  | obj  : List (String × Json) → Json

/-- A Python dict with string keys, in insertion order. -/
abbrev Dict := List (String × Json)

/-- Python d[k] = v : overwrite in place when the key is present, else append. -/
def dictSet (d : Dict) (k : String) (v : Json) : Dict :=
  match d with
  | [] => [(k, v)]
  | (k', v') :: rest => if k' = k then (k, v) :: rest else (k', v') :: dictSet rest k v

/-- Python (k in d). -/
def hasKey (k : String) (d : Dict) : Bool :=
  d.any (fun p => p.1 == k)

/-- Python str.find(c): index of the first occurrence, -1 when absent. -/
def strFind (s : String) (c : Char) : Int :=
  match s.toList.findIdx? (fun x => x == c) with
  | some i => (i : Int)
  | none => -1

/-- Python str.rfind(c): index of the last occurrence, -1 when absent. -/
def strRfind (s : String) (c : Char) : Int :=
  match s.toList.reverse.findIdx? (fun x => x == c) with
  | some i => ((s.toList.length - 1 - i : Nat) : Int)
  | none => -1

/-- Python s[a:b] for non-negative bounds (empty when a exceeds b). -/
def pySlice (s : String) (a b : Nat) : String :=
  String.mk ((s.toList.drop a).take (b - a))

/-- Option String to Json (Python None becomes null). -/
def jsonOfOptStr : Option String → Json
  | none => Json.null
  | some s => Json.str s

/-- Option Int to Json (Python None becomes null). -/
def jsonOfOptInt : Option Int → Json
  | none => Json.null
  | some n => Json.num (n : Rat)

/-- The input_metrics echo attached by fitness_advisor.py (keys as in the source). -/
def inputMetrics (heart_rate : Int) (sleep_hours : Rat) (stress_level : Int)
    (ts : String) : Json :=
  Json.obj [("heart_rate_bpm", Json.num (heart_rate : Rat)),
            ("sleep_hours", Json.num sleep_hours),
            ("stress_level", Json.num (stress_level : Rat)),
            ("timestamp", Json.str ts)]

/-- The if/elif/else local-variable assignments of _get_fallback_recommendation:
alert_level, should_train, workout, intensity, duration. -/
def fallbackTier (heart_rate : Int) (sleep_hours : Rat) (stress_level : Int) :
    String × Bool × String × String × Nat :=
  if heart_rate > 100 ∨ sleep_hours < 4 ∨ stress_level ≥ 8 then
    ("high", false, "Rest day or gentle stretching", "very low", 15)
  else if heart_rate > 85 ∨ sleep_hours < 6 ∨ stress_level ≥ 6 then
    ("medium", true, "Light cardio (walking, cycling)", "low", 30)
  else
    ("low", true, "Moderate workout (running, weight training)", "moderate", 45)

/-- The interpolated alert_message f-string of _get_fallback_recommendation. -/
def metricsMessage (heart_rate : Int) (sleep_hours : Rat) (stress_level : Int) : String :=
  "Based on your metrics: HR=" ++ toString heart_rate ++ "bpm, Sleep=" ++
    toString sleep_hours ++ "h, Stress=" ++ toString stress_level ++ "/10"

/-- FitnessAdvisorAgent._get_fallback_recommendation (fitness_advisor.py 147-186). -/
def get_fallback_recommendation (heart_rate : Int) (sleep_hours : Rat)
    (stress_level : Int) (ts : String) : Dict :=
  let t := fallbackTier heart_rate sleep_hours stress_level
  [("alert_level", Json.str t.1),
   ("should_train", Json.bool t.2.1),
   ("alert_message", Json.str (metricsMessage heart_rate sleep_hours stress_level)),
   ("recommended_workout", Json.str t.2.2.1),
   ("intensity_level", Json.str t.2.2.2.1),
   ("duration_minutes", Json.num (t.2.2.2.2 : Rat)),
   ("modifications", Json.str "Listen to your body and adjust as needed"),
   ("recovery_tips", Json.str "Hydrate well and ensure proper nutrition"),
   ("input_metrics", inputMetrics heart_rate sleep_hours stress_level ts)]

/-- The hardcoded generic record built by _parse_response when no JSON is found. -/
def genericRecord : Dict :=
  [("alert_level", Json.str "medium"),
   ("should_train", Json.bool true),
   ("alert_message", Json.str "AI response format issue, using default recommendation"),
   ("recommended_workout", Json.str "Light cardio (30 min walk/jog)"),
   ("intensity_level", Json.str "low"),
   ("duration_minutes", Json.num 30),
   ("modifications", Json.str "Reduce intensity if feeling tired"),
   ("recovery_tips", Json.str "Stay hydrated and monitor how you feel")]

/-- The substring of the reply between the first open brace and the last close
brace inclusive, exactly as sliced by _parse_response. -/
def extractCandidate (s : String) : String :=
  pySlice s (strFind s '{').toNat (strRfind s '}' + 1).toNat

/-- FitnessAdvisorAgent._parse_response (fitness_advisor.py 110-145); loads is the
json.loads oracle. The only exception reachable inside the try block is the parse
error, which the source catches as json.JSONDecodeError and answers with the
rule-based fallback. -/
def parse_response (loads : String → Except String Dict) (ai_response : String)
    (heart_rate : Int) (sleep_hours : Rat) (stress_level : Int) (ts : String) : Dict :=
  let json_start := strFind ai_response '{'
  let json_end := strRfind ai_response '}' + 1
  if json_start ≠ -1 ∧ json_end ≠ 0 then
    match loads (pySlice ai_response json_start.toNat json_end.toNat) with
    | Except.ok response_json =>
        dictSet response_json "input_metrics"
          (inputMetrics heart_rate sleep_hours stress_level ts)
    | Except.error _ => get_fallback_recommendation heart_rate sleep_hours stress_level ts
  else
    dictSet genericRecord "input_metrics"
      (inputMetrics heart_rate sleep_hours stress_level ts)

/-- FitnessAdvisorAgent.analyze_health_status (fitness_advisor.py 24-60); llm is the
outcome of the external chat-completion call (ok: reply text, error: raised
exception). previous_workout only feeds the prompt, never the result. -/
def analyze_health_status (loads : String → Except String Dict)
    (llm : Except String String) (heart_rate : Int) (sleep_hours : Rat)
    (stress_level : Int) (_previous_workout : Option String) (ts : String) : Dict :=
  match llm with
  | Except.ok ai_response =>
      parse_response loads ai_response heart_rate sleep_hours stress_level ts
  | Except.error _ => get_fallback_recommendation heart_rate sleep_hours stress_level ts

/-- The FitnessAdvisorAgent record held after construction. -/
structure FitnessAdvisorAgent where
  api_key : String
  model : String

/-- FitnessAdvisorAgent.__init__ (fitness_advisor.py 6-22): only an ImportError of
the openai package is possible; no credential validation happens, the OpenAI
client constructor accepts any string key. -/
def FitnessAdvisorAgent_init (openai_available : Bool) (api_key : String)
    (model : String := "deepseek-chat") : Except String FitnessAdvisorAgent :=
  if openai_available then
    Except.ok { api_key := api_key, model := model }
  else
    Except.error "Please install openai package: pip install openai"

/-- FallbackAdvisor.analyze_health_status (api_server.py 22-56); previous_workout
is accepted and ignored. -/
def FallbackAdvisor_analyze_health_status (heart_rate : Int) (sleep_hours : Rat)
    (stress_level : Int) (_previous_workout : Option String) : Dict :=
  if heart_rate > 100 ∨ sleep_hours < 4 ∨ stress_level ≥ 8 then
    [("alert_level", Json.str "high"),
     ("should_train", Json.bool false),
     ("workout", Json.str "Rest day"),
     ("intensity", Json.str "very low"),
     ("duration", Json.num 0),
     ("message", Json.str "Rest recommended based on your metrics"),
     ("modifications", Json.str "Focus on recovery"),
     ("recovery_tips", Json.str "Hydrate and get good sleep")]
  else if heart_rate > 85 ∨ sleep_hours < 6 ∨ stress_level ≥ 6 then
    [("alert_level", Json.str "medium"),
     ("should_train", Json.bool true),
     ("workout", Json.str "Light cardio (walking, cycling)"),
     ("intensity", Json.str "low"),
     ("duration", Json.num 30),
     ("message", Json.str "Light activity recommended"),
     ("modifications", Json.str "Reduce intensity if needed"),
     ("recovery_tips", Json.str "Listen to your body")]
  else
    [("alert_level", Json.str "low"),
     ("should_train", Json.bool true),
     ("workout", Json.str "Moderate workout"),
     ("intensity", Json.str "moderate"),
     ("duration", Json.num 45),
     ("message", Json.str "Good condition for training"),
     ("modifications", Json.str "None needed"),
     ("recovery_tips", Json.str "Stay hydrated")]

/-- The HealthMetrics pydantic request model (api_server.py 61-68). -/
structure HealthMetrics where
  heart_rate : Int
  sleep_hours : Rat
  stress_level : Int
  previous_workout : Option String := none
  user_id : Option String := none
  age : Option Int := none
  fitness_level : Option String := some "intermediate"

/-- The required-field list of the /recommend handler (api_server.py 119). -/
def required_fields : List String :=
  ["alert_level", "should_train", "workout", "intensity", "duration"]

/-- One step of the /recommend loop: if field not in result, result[field] = "N/A". -/
def fillMissing (r : Dict) (f : String) : Dict :=
  if hasKey f r then r else r ++ [(f, Json.str "N/A")]

/-- The /recommend handler's post-processing of an advisor result
(api_server.py 118-136): fill the five required fields with the sentinel when
absent, then attach api metadata and the echoed input metrics. -/
def normalizeResult (result : Dict) (m : HealthMetrics) (ts request_id : String) : Dict :=
  let r1 := required_fields.foldl fillMissing result
  let r2 := dictSet r1 "api_version" (Json.str "1.0")
  let r3 := dictSet r2 "timestamp" (Json.str ts)
  let r4 := dictSet r3 "request_id" (Json.str request_id)
  let r5 := dictSet r4 "user_id" (jsonOfOptStr m.user_id)
  dictSet r5 "input_metrics"
    (Json.obj [("heart_rate", Json.num (m.heart_rate : Rat)),
               ("sleep_hours", Json.num m.sleep_hours),
               ("stress_level", Json.num (m.stress_level : Rat)),
               ("previous_workout", jsonOfOptStr m.previous_workout),
               ("age", jsonOfOptInt m.age),
               ("fitness_level", jsonOfOptStr m.fitness_level)])

/-- The /recommend handler end to end (api_server.py 108-139): the advisor in this
repository is always FallbackAdvisor (the SimpleFitnessAdvisor import fails). -/
def get_recommendation (m : HealthMetrics) (ts request_id : String) : Dict :=
  normalizeResult
    (FallbackAdvisor_analyze_health_status m.heart_rate m.sleep_hours m.stress_level
      m.previous_workout)
    m ts request_id

/-- One item of the /batch loop (api_server.py 152-173): the try body runs the
advisor and attaches user_id and a timestamp; on an exception the error record
with the echoed inputs is appended instead. The advisor call is an oracle so that
per-item failure can be expressed; the shipped FallbackAdvisor never fails. -/
def batchItem (analyze : HealthMetrics → Except String Dict) (m : HealthMetrics)
    (ts : String) : Dict :=
  match analyze m with
  | Except.ok result =>
      dictSet (dictSet result "user_id" (jsonOfOptStr m.user_id))
        "request_timestamp" (Json.str ts)
  | Except.error e =>
      [("error", Json.str e),
       ("user_id", jsonOfOptStr m.user_id),
       ("heart_rate", Json.num (m.heart_rate : Rat)),
       ("sleep_hours", Json.num m.sleep_hours),
       ("stress_level", Json.num (m.stress_level : Rat))]

/-- The /batch response envelope (api_server.py 175-181). -/
structure BatchResponse where
  batch_id : String
  total_requests : Nat
  successful : Nat
  failed : Nat
  results : List Dict

/-- The /batch handler (api_server.py 146-181). -/
def batch_recommendations (analyze : HealthMetrics → Except String Dict)
    (metrics_list : List HealthMetrics) (ts batch_id : String) : BatchResponse :=
  let results := metrics_list.map (fun m => batchItem analyze m ts)
  { batch_id := batch_id
    total_requests := metrics_list.length
    successful := (results.filter (fun r => !(hasKey "error" r))).length
    failed := (results.filter (fun r => hasKey "error" r)).length
    results := results }

/-
Helper lemmas shared by several claim theorems.
-/

/-- Looking up should_train in the agent fallback yields the tier's boolean. -/
theorem lookup_should_train_agent (hr : Int) (s : Rat) (st : Int) (ts : String) :
    List.lookup "should_train" (get_fallback_recommendation hr s st ts) =
      some (Json.bool (fallbackTier hr s st).2.1) := rfl

/-- Looking up alert_level in the agent fallback yields the tier's label. -/
theorem lookup_alert_agent (hr : Int) (s : Rat) (st : Int) (ts : String) :
    List.lookup "alert_level" (get_fallback_recommendation hr s st ts) =
      some (Json.str (fallbackTier hr s st).1) := rfl

/-- Looking up the workout in the agent fallback yields the tier's workout text. -/
theorem lookup_workout_agent (hr : Int) (s : Rat) (st : Int) (ts : String) :
    List.lookup "recommended_workout" (get_fallback_recommendation hr s st ts) =
      some (Json.str (fallbackTier hr s st).2.2.1) := rfl

/-- Looking up the intensity in the agent fallback yields the tier's intensity. -/
theorem lookup_intensity_agent (hr : Int) (s : Rat) (st : Int) (ts : String) :
    List.lookup "intensity_level" (get_fallback_recommendation hr s st ts) =
      some (Json.str (fallbackTier hr s st).2.2.2.1) := rfl

/-- Looking up the duration in the agent fallback yields the tier's duration. -/
theorem lookup_duration_agent (hr : Int) (s : Rat) (st : Int) (ts : String) :
    List.lookup "duration_minutes" (get_fallback_recommendation hr s st ts) =
      some (Json.num ((fallbackTier hr s st).2.2.2.2 : Rat)) := rfl

/-- The API fallback's alert_level agrees with the agent tier's label. -/
theorem lookup_alert_api (hr : Int) (s : Rat) (st : Int) (pw : Option String) :
    List.lookup "alert_level" (FallbackAdvisor_analyze_health_status hr s st pw) =
      some (Json.str (fallbackTier hr s st).1) := by
  unfold FallbackAdvisor_analyze_health_status fallbackTier
  split_ifs <;> rfl

/-- The API fallback's should_train agrees with the agent tier's boolean. -/
theorem lookup_should_train_api (hr : Int) (s : Rat) (st : Int) (pw : Option String) :
    List.lookup "should_train" (FallbackAdvisor_analyze_health_status hr s st pw) =
      some (Json.bool (fallbackTier hr s st).2.1) := by
  unfold FallbackAdvisor_analyze_health_status fallbackTier
  split_ifs <;> rfl

/-- The API fallback's intensity agrees with the agent tier's intensity. -/
theorem lookup_intensity_api (hr : Int) (s : Rat) (st : Int) (pw : Option String) :
    List.lookup "intensity" (FallbackAdvisor_analyze_health_status hr s st pw) =
      some (Json.str (fallbackTier hr s st).2.2.2.1) := by
  unfold FallbackAdvisor_analyze_health_status fallbackTier
  split_ifs <;> rfl

/-- The API fallback's duration: 0 on high alert, otherwise the agent tier's value. -/
theorem lookup_duration_api (hr : Int) (s : Rat) (st : Int) (pw : Option String) :
    List.lookup "duration" (FallbackAdvisor_analyze_health_status hr s st pw) =
      some (Json.num (if hr > 100 ∨ s < 4 ∨ st ≥ 8 then 0
                      else ((fallbackTier hr s st).2.2.2.2 : Rat))) := by
  unfold FallbackAdvisor_analyze_health_status fallbackTier
  split_ifs with h1 h2 <;> rfl

/-- Wrapped booleans are equal exactly when the booleans are. -/
theorem some_bool_inj (b c : Bool) :
    (some (Json.bool b) = some (Json.bool c)) ↔ b = c := by
  constructor
  · intro h
    have h' := Option.some.inj h
    injection h'
  · intro h; rw [h]

/-- Wrapped strings are equal exactly when the strings are. -/
theorem some_str_inj (a b : String) :
    (some (Json.str a) = some (Json.str b)) ↔ a = b := by
  constructor
  · intro h
    have h' := Option.some.inj h
    injection h'
  · intro h; rw [h]

/-- C1: the rule-based classifier returns the high tier (should_train false) exactly
when heart_rate exceeds 100 or sleep_hours is below 4 or stress_level is at least 8;
otherwise the medium tier (should_train true, intensity low, duration 30) exactly when
heart_rate exceeds 85 or sleep_hours is below 6 or stress_level is at least 6;
otherwise the low tier (should_train true, intensity moderate, duration 45). The API
fallback selects by the same comparisons, and the boundary inputs fall as the
comparisons dictate: heart_rate 100 is medium, sleep_hours 4 does not trigger high,
stress_level 8 is high. -/
theorem C1_threshold_classifier :
    ∀ (hr : Int) (s : Rat) (st : Int) (pw : Option String),
      (fallbackTier hr s st =
          ("high", false, "Rest day or gentle stretching", "very low", 15) ↔
        hr > 100 ∨ s < 4 ∨ st ≥ 8)
      ∧ (fallbackTier hr s st =
          ("medium", true, "Light cardio (walking, cycling)", "low", 30) ↔
        ¬(hr > 100 ∨ s < 4 ∨ st ≥ 8) ∧ (hr > 85 ∨ s < 6 ∨ st ≥ 6))
      ∧ (fallbackTier hr s st =
          ("low", true, "Moderate workout (running, weight training)", "moderate", 45) ↔
        ¬(hr > 100 ∨ s < 4 ∨ st ≥ 8) ∧ ¬(hr > 85 ∨ s < 6 ∨ st ≥ 6))
      ∧ List.lookup "alert_level" (FallbackAdvisor_analyze_health_status hr s st pw) =
          some (Json.str (fallbackTier hr s st).1)
      ∧ List.lookup "should_train" (FallbackAdvisor_analyze_health_status hr s st pw) =
          some (Json.bool (fallbackTier hr s st).2.1)
      ∧ (fallbackTier 100 7 3).1 = "medium"
      ∧ (fallbackTier 70 4 3).1 = "medium"
      ∧ (fallbackTier 70 7 8).1 = "high" := by
  intro hr s st pw
  refine ⟨?_, ?_, ?_, lookup_alert_api hr s st pw, lookup_should_train_api hr s st pw,
    by decide, by decide, by decide⟩
  · unfold fallbackTier
    split_ifs with h1 h2
    · exact iff_of_true rfl h1
    · exact iff_of_false (by decide) h1
    · exact iff_of_false (by decide) h1
  · unfold fallbackTier
    split_ifs with h1 h2
    · exact iff_of_false (by decide) (fun hc => hc.1 h1)
    · exact iff_of_true rfl ⟨h1, h2⟩
    · exact iff_of_false (by decide) (fun hc => h2 hc.2)
  · unfold fallbackTier
    split_ifs with h1 h2
    · exact iff_of_false (by decide) (fun hc => hc.1 h1)
    · exact iff_of_false (by decide) (fun hc => hc.2 h2)
    · exact iff_of_true rfl ⟨h1, h2⟩

/-- C2: when the external chat-completion call raises any failure, analyze_health_status
returns the rule-based fallback for the same inputs — no retry, no propagated
exception — and the result is a complete record carrying every recommendation field. -/
theorem C2_llm_error_fallback :
    ∀ (loads : String → Except String Dict) (e : String) (hr : Int) (s : Rat)
      (st : Int) (pw : Option String) (ts : String),
      analyze_health_status loads (Except.error e) hr s st pw ts =
        get_fallback_recommendation hr s st ts
      ∧ hasKey "alert_level" (analyze_health_status loads (Except.error e) hr s st pw ts) = true
      ∧ hasKey "should_train" (analyze_health_status loads (Except.error e) hr s st pw ts) = true
      ∧ hasKey "alert_message" (analyze_health_status loads (Except.error e) hr s st pw ts) = true
      ∧ hasKey "recommended_workout" (analyze_health_status loads (Except.error e) hr s st pw ts) = true
      ∧ hasKey "intensity_level" (analyze_health_status loads (Except.error e) hr s st pw ts) = true
      ∧ hasKey "duration_minutes" (analyze_health_status loads (Except.error e) hr s st pw ts) = true
      ∧ hasKey "modifications" (analyze_health_status loads (Except.error e) hr s st pw ts) = true
      ∧ hasKey "recovery_tips" (analyze_health_status loads (Except.error e) hr s st pw ts) = true
      ∧ hasKey "input_metrics" (analyze_health_status loads (Except.error e) hr s st pw ts) = true := by
  intro loads e hr s st pw ts
  exact ⟨rfl, rfl, rfl, rfl, rfl, rfl, rfl, rfl, rfl, rfl⟩

/-- C8: previous_workout never influences the rule-based classification: two calls
agreeing on the three numeric metrics but differing in previous_workout (present or
absent) produce identical results, both for the API fallback and for the agent
path with a fixed external outcome. -/
theorem C8_previous_workout_noninterference :
    ∀ (hr : Int) (s : Rat) (st : Int) (pw pw' : Option String),
      FallbackAdvisor_analyze_health_status hr s st pw =
        FallbackAdvisor_analyze_health_status hr s st pw'
      ∧ ∀ (loads : String → Except String Dict) (llm : Except String String) (ts : String),
          analyze_health_status loads llm hr s st pw ts =
            analyze_health_status loads llm hr s st pw' ts := by
  intro hr s st pw pw'
  exact ⟨rfl, fun loads llm ts => rfl⟩

/-- C10: in both rule-based fallbacks, should_train is false exactly when alert_level
is high, for every input triple including negative and out-of-range values. -/
theorem C10_should_train_iff_high :
    ∀ (hr : Int) (s : Rat) (st : Int) (pw : Option String) (ts : String),
      (List.lookup "should_train" (get_fallback_recommendation hr s st ts) =
          some (Json.bool false) ↔
        List.lookup "alert_level" (get_fallback_recommendation hr s st ts) =
          some (Json.str "high"))
      ∧ (List.lookup "should_train" (FallbackAdvisor_analyze_health_status hr s st pw) =
          some (Json.bool false) ↔
        List.lookup "alert_level" (FallbackAdvisor_analyze_health_status hr s st pw) =
          some (Json.str "high")) := by
  intro hr s st pw ts
  constructor
  · rw [lookup_should_train_agent, lookup_alert_agent, some_bool_inj, some_str_inj]
    unfold fallbackTier
    split_ifs <;> decide
  · rw [lookup_should_train_api, lookup_alert_api, some_bool_inj, some_str_inj]
    unfold fallbackTier
    split_ifs <;> decide

/-- Setting one key leaves lookups of every other key unchanged. -/
theorem lookup_dictSet_ne (d : Dict) (k : String) (v : Json) (k' : String)
    (h : k' ≠ k) : List.lookup k' (dictSet d k v) = List.lookup k' d := by
  induction d with
  | nil =>
    have hb : (k' == k) = false := beq_eq_false_iff_ne.mpr h
    simp [dictSet, List.lookup, hb]
  | cons hd tl ih =>
    obtain ⟨k₀, v₀⟩ := hd
    by_cases hk : k₀ = k
    · subst hk
      have hb : (k' == k₀) = false := beq_eq_false_iff_ne.mpr h
      simp [dictSet, List.lookup, hb]
    · by_cases hk' : k' = k₀
      · subst hk'
        simp [dictSet, hk, List.lookup]
      · have hb : (k' == k₀) = false := beq_eq_false_iff_ne.mpr hk'
        simp [dictSet, hk, List.lookup, hb, ih]

/-- C4: when the reply contains an open and a close brace and the slice from the
first open brace through the last close brace parses as a JSON object, the parser
returns exactly that object with an input_metrics entry attached, and every other
field of the parsed object — an alert_level of rest included — is left unchanged. -/
theorem C4_parse_success :
    ∀ (loads : String → Except String Dict) (txt : String) (hr : Int) (s : Rat)
      (st : Int) (ts : String) (o : Dict),
      strFind txt '{' ≠ -1 →
      strRfind txt '}' ≠ -1 →
      loads (extractCandidate txt) = Except.ok o →
      parse_response loads txt hr s st ts =
        dictSet o "input_metrics" (inputMetrics hr s st ts)
      ∧ ∀ k, k ≠ "input_metrics" →
          List.lookup k (parse_response loads txt hr s st ts) = List.lookup k o := by
  intro loads txt hr s st ts o h1 h2 h3
  have hcond : strFind txt '{' ≠ -1 ∧ strRfind txt '}' + 1 ≠ 0 := ⟨h1, by omega⟩
  have hmain : parse_response loads txt hr s st ts =
      dictSet o "input_metrics" (inputMetrics hr s st ts) := by
    unfold parse_response
    rw [if_pos hcond]
    have : pySlice txt (strFind txt '{').toNat (strRfind txt '}' + 1).toNat =
        extractCandidate txt := rfl
    rw [this, h3]
  refine ⟨hmain, fun k hk => ?_⟩
  rw [hmain, lookup_dictSet_ne o "input_metrics" (inputMetrics hr s st ts) k hk]

/-- A json.loads oracle for the reply used in the parse-success witness: the slice
is the empty JSON object. -/
def witLoads : String → Except String Dict :=
  fun s => if s = "{}" then Except.ok [] else Except.error "Expecting value"

theorem C4_parse_success_witness :
    strFind "reply {} end" '{' ≠ -1
    ∧ strRfind "reply {} end" '}' ≠ -1
    ∧ witLoads (extractCandidate "reply {} end") = Except.ok []
    ∧ parse_response witLoads "reply {} end" 72 (15 / 2) 4 "t" =
        dictSet [] "input_metrics" (inputMetrics 72 (15 / 2) 4 "t")
    ∧ List.lookup "alert_level" (parse_response witLoads "reply {} end" 72 (15 / 2) 4 "t") =
        List.lookup "alert_level" ([] : Dict) :=
  ⟨by decide, by decide, rfl,
   (C4_parse_success witLoads "reply {} end" 72 (15 / 2) 4 "t" []
      (by decide) (by decide) rfl).1,
   (C4_parse_success witLoads "reply {} end" 72 (15 / 2) 4 "t" []
      (by decide) (by decide) rfl).2 "alert_level" (by decide)⟩

/-- A json.loads oracle representing the parse error json.loads raises on the
malformed candidate used in the C3 counterexample. -/
def cexLoads : String → Except String Dict :=
  fun _ => Except.error "Expecting property name enclosed in double quotes"

/-- C3 counterexample: the reply holds braces around malformed content, so the claim
demands the fixed generic medium-alert record; the code instead catches the parse
error and returns the Threshold fallback, which at heart_rate 105 has alert_level
high — not the generic record's medium. -/
theorem C3_parse_failure_cex :
    List.lookup "alert_level" (parse_response cexLoads "{x}" 105 6 5 "t") =
      some (Json.str "high")
    ∧ List.lookup "alert_level"
        (dictSet genericRecord "input_metrics" (inputMetrics 105 6 5 "t")) =
      some (Json.str "medium")
    ∧ parse_response cexLoads "{x}" 105 6 5 "t" =
        get_fallback_recommendation 105 6 5 "t" := by
  exact ⟨rfl, rfl, rfl⟩

/-- C3 amended: when the reply holds no open brace or no close brace, the parser
substitutes the fixed generic medium-alert record with input_metrics attached; when
braces are present but the slice between them is malformed, the parse exception is
caught and the Threshold Classifier fallback for the same inputs is returned
instead; neither case is a crash. -/
theorem C3_parse_failure_amended :
    ∀ (loads : String → Except String Dict) (txt : String) (hr : Int) (s : Rat)
      (st : Int) (ts : String),
      ((strFind txt '{' = -1 ∨ strRfind txt '}' = -1) →
        parse_response loads txt hr s st ts =
          dictSet genericRecord "input_metrics" (inputMetrics hr s st ts))
      ∧ (∀ e, strFind txt '{' ≠ -1 → strRfind txt '}' ≠ -1 →
          loads (extractCandidate txt) = Except.error e →
          parse_response loads txt hr s st ts =
            get_fallback_recommendation hr s st ts) := by
  intro loads txt hr s st ts
  constructor
  · intro h
    unfold parse_response
    rw [if_neg]
    intro hc
    rcases h with h | h
    · exact hc.1 h
    · exact hc.2 (by omega)
  · intro e h1 h2 h3
    have hcond : strFind txt '{' ≠ -1 ∧ strRfind txt '}' + 1 ≠ 0 := ⟨h1, by omega⟩
    unfold parse_response
    rw [if_pos hcond]
    have : pySlice txt (strFind txt '{').toNat (strRfind txt '}' + 1).toNat =
        extractCandidate txt := rfl
    rw [this, h3]

theorem C3_parse_failure_witness :
    parse_response cexLoads "no json here" 72 (15 / 2) 4 "t" =
      dictSet genericRecord "input_metrics" (inputMetrics 72 (15 / 2) 4 "t")
    ∧ parse_response cexLoads "{y}" 72 (15 / 2) 4 "t" =
        get_fallback_recommendation 72 (15 / 2) 4 "t" :=
  ⟨(C3_parse_failure_amended cexLoads "no json here" 72 (15 / 2) 4 "t").1
      (Or.inl (by decide)),
   (C3_parse_failure_amended cexLoads "{y}" 72 (15 / 2) 4 "t").2
      "Expecting property name enclosed in double quotes" (by decide) (by decide) rfl⟩

/-- C6 counterexample: the repository's own fallback-mode key (app.py passes
dummy-key exactly when no real credential exists) is unusable for the LLM path,
yet construction succeeds — no construction-time error is raised for it. -/
theorem C6_init_cex :
    FitnessAdvisorAgent_init true "dummy-key" "deepseek-chat" =
      Except.ok { api_key := "dummy-key", model := "deepseek-chat" }
    ∧ FitnessAdvisorAgent_init true "test" "deepseek-chat" =
      Except.ok { api_key := "test", model := "deepseek-chat" } :=
  ⟨rfl, rfl⟩

/-- C6 amended: construction validates no credential — it succeeds for every string
api_key whenever the openai package is importable, and raises only the ImportError
otherwise; an unusable credential instead fails at call time, where the failure is
caught and the rule-based fallback returned, keeping the system usable in a
credential-less mode. -/
theorem C6_init_amended :
    ∀ (api_key model : String),
      FitnessAdvisorAgent_init true api_key model =
        Except.ok { api_key := api_key, model := model }
      ∧ FitnessAdvisorAgent_init false api_key model =
        Except.error "Please install openai package: pip install openai"
      ∧ ∀ (loads : String → Except String Dict) (e : String) (hr : Int) (s : Rat)
          (st : Int) (pw : Option String) (ts : String),
          analyze_health_status loads (Except.error e) hr s st pw ts =
            get_fallback_recommendation hr s st ts := by
  intro api_key model
  exact ⟨rfl, rfl, fun loads e hr s st pw ts => rfl⟩

/-- C7 counterexample: at heart_rate 105 both fallbacks pick the high tier, but
beyond the duration literal and the field naming the free-text contents differ
too — the workout and message texts disagree — so the two implementations do not
differ only in the high-alert duration and field naming. -/
theorem C7_fallback_equiv_cex :
    List.lookup "workout" (FallbackAdvisor_analyze_health_status 105 6 5 none) =
      some (Json.str "Rest day")
    ∧ List.lookup "recommended_workout" (get_fallback_recommendation 105 6 5 "t") =
      some (Json.str "Rest day or gentle stretching")
    ∧ ("Rest day" : String) ≠ "Rest day or gentle stretching"
    ∧ List.lookup "message" (FallbackAdvisor_analyze_health_status 105 6 5 none) =
      some (Json.str "Rest recommended based on your metrics")
    ∧ List.lookup "alert_message" (get_fallback_recommendation 105 6 5 "t") =
      some (Json.str (metricsMessage 105 6 5)) :=
  ⟨rfl, rfl, by decide, rfl, rfl⟩

/-- C7 amended: for every input triple the two rule-based fallbacks select the same
tier — equal alert_level, should_train and intensity — and equal durations except on
the high tier, where the agent answers 15 and the API fallback 0; the remaining
free-text fields (workout, message, modifications, recovery tips) and the field
naming differ between the two implementations. -/
theorem C7_fallback_equiv_amended :
    ∀ (hr : Int) (s : Rat) (st : Int) (pw : Option String) (ts : String),
      List.lookup "alert_level" (FallbackAdvisor_analyze_health_status hr s st pw) =
        List.lookup "alert_level" (get_fallback_recommendation hr s st ts)
      ∧ List.lookup "should_train" (FallbackAdvisor_analyze_health_status hr s st pw) =
        List.lookup "should_train" (get_fallback_recommendation hr s st ts)
      ∧ List.lookup "intensity" (FallbackAdvisor_analyze_health_status hr s st pw) =
        List.lookup "intensity_level" (get_fallback_recommendation hr s st ts)
      ∧ (List.lookup "duration" (FallbackAdvisor_analyze_health_status hr s st pw) =
          List.lookup "duration_minutes" (get_fallback_recommendation hr s st ts)
        ∨ (List.lookup "alert_level" (FallbackAdvisor_analyze_health_status hr s st pw) =
            some (Json.str "high")
          ∧ List.lookup "duration" (FallbackAdvisor_analyze_health_status hr s st pw) =
            some (Json.num 0)
          ∧ List.lookup "duration_minutes" (get_fallback_recommendation hr s st ts) =
            some (Json.num 15))) := by
  intro hr s st pw ts
  rw [lookup_alert_api, lookup_alert_agent, lookup_should_train_api,
    lookup_should_train_agent, lookup_intensity_api, lookup_intensity_agent,
    lookup_duration_api, lookup_duration_agent]
  refine ⟨rfl, rfl, rfl, ?_⟩
  by_cases h : hr > 100 ∨ s < 4 ∨ st ≥ 8
  · refine Or.inr ⟨?_, ?_, ?_⟩
    · unfold fallbackTier; rw [if_pos h]
    · rw [if_pos h]
    · unfold fallbackTier; rw [if_pos h]; rfl
  · rw [if_neg h]
    exact Or.inl rfl

/-
Key-presence lemmas for the /recommend field-filling step.
-/

/-- Key presence distributes over append. -/
theorem hasKey_append (f : String) (r r' : Dict) :
    hasKey f (r ++ r') = (hasKey f r || hasKey f r') := by
  simp [hasKey, List.any_append]

/-- Key presence on a cons cell. -/
theorem hasKey_cons (f k : String) (v : Json) (r : Dict) :
    hasKey f ((k, v) :: r) = ((k == f) || hasKey f r) := rfl

/-- fillMissing guarantees the filled key is present afterwards. -/
theorem hasKey_fillMissing_self (r : Dict) (f : String) :
    hasKey f (fillMissing r f) = true := by
  unfold fillMissing
  by_cases h : hasKey f r = true
  · rw [if_pos h]; exact h
  · rw [if_neg h, hasKey_append]
    simp [hasKey]

/-- fillMissing never removes a key that was already present. -/
theorem hasKey_fillMissing_of (r : Dict) (f g : String) (h : hasKey f r = true) :
    hasKey f (fillMissing r g) = true := by
  unfold fillMissing
  by_cases hg : hasKey g r = true
  · rw [if_pos hg]; exact h
  · rw [if_neg hg, hasKey_append, h]
    rfl

/-- dictSet never removes a key that was already present. -/
theorem hasKey_dictSet_of (k : String) (v : Json) (f : String) :
    ∀ (d : Dict), hasKey f d = true → hasKey f (dictSet d k v) = true := by
  intro d
  induction d with
  | nil => intro h; simp [hasKey] at h
  | cons hd tl ih =>
    obtain ⟨k₀, v₀⟩ := hd
    intro h
    rw [hasKey_cons] at h
    unfold dictSet
    by_cases hk : k₀ = k
    · subst hk
      rw [if_pos rfl, hasKey_cons]
      exact h
    · rw [if_neg hk, hasKey_cons]
      cases hb : (k₀ == f) with
      | true => rfl
      | false =>
        rw [hb] at h
        exact ih h
  
/-- dictSet guarantees the set key is present afterwards. -/
theorem hasKey_dictSet_self (d : Dict) (k : String) (v : Json) :
    hasKey k (dictSet d k v) = true := by
  induction d with
  | nil => simp [dictSet, hasKey]
  | cons hd tl ih =>
    obtain ⟨k₀, v₀⟩ := hd
    unfold dictSet
    by_cases hk : k₀ = k
    · rw [if_pos hk, hasKey_cons]
      simp
    · rw [if_neg hk, hasKey_cons, ih]
      simp

/-- Folding fillMissing preserves every key that was already present. -/
theorem hasKey_foldl_fillMissing_of (fs : List String) (f : String) :
    ∀ (r : Dict), hasKey f r = true → hasKey f (fs.foldl fillMissing r) = true := by
  induction fs with
  | nil => intro r h; exact h
  | cons a tl ih =>
    intro r h
    exact ih (fillMissing r a) (hasKey_fillMissing_of r f a h)

/-- Folding fillMissing makes every listed key present. -/
theorem hasKey_foldl_fillMissing_mem (fs : List String) (f : String) :
    ∀ (r : Dict), f ∈ fs → hasKey f (fs.foldl fillMissing r) = true := by
  induction fs with
  | nil => intro r h; cases h
  | cons a tl ih =>
    intro r h
    rcases List.mem_cons.mp h with h' | h'
    · subst h'
      exact hasKey_foldl_fillMissing_of tl f (fillMissing r f)
        (hasKey_fillMissing_self r f)
    · exact ih (fillMissing r a) h'

/-- The /recommend post-processing makes each of the five required fields present,
whatever the advisor result was. -/
theorem hasKey_normalize_required (result : Dict) (m : HealthMetrics)
    (ts rid : String) (f : String) (h : f ∈ required_fields) :
    hasKey f (normalizeResult result m ts rid) = true := by
  unfold normalizeResult
  apply hasKey_dictSet_of
  apply hasKey_dictSet_of
  apply hasKey_dictSet_of
  apply hasKey_dictSet_of
  apply hasKey_dictSet_of
  exact hasKey_foldl_fillMissing_mem required_fields f result h

/-- Sample metrics with a low-tier triple (as in the repository's examples). -/
def m0 : HealthMetrics :=
  { heart_rate := 72, sleep_hours := 7, stress_level := 4 }

/-- C5 counterexample: the front end fills only the five required fields; a result
lacking the message field keeps lacking it (under either naming) after the
post-processing, and the absent input_metrics field is set to the echoed metrics
object, not to the sentinel string. -/
theorem C5_field_presence_cex :
    hasKey "message" (normalizeResult [] m0 "t" "r") = false
    ∧ hasKey "alert_message" (normalizeResult [] m0 "t" "r") = false
    ∧ hasKey "recovery_tips" (normalizeResult [] m0 "t" "r") = false
    ∧ List.lookup "input_metrics" (get_recommendation m0 "t" "r") ≠
        some (Json.str "N/A")
    ∧ hasKey "input_metrics" (get_recommendation m0 "t" "r") = true := by
  refine ⟨rfl, rfl, rfl, ?_, rfl⟩
  intro h
  rw [show List.lookup "input_metrics" (get_recommendation m0 "t" "r") =
      some (Json.obj [("heart_rate", Json.num ((72 : Int) : Rat)),
        ("sleep_hours", Json.num 7),
        ("stress_level", Json.num ((4 : Int) : Rat)),
        ("previous_workout", Json.null), ("age", Json.null),
        ("fitness_level", Json.str "intermediate")]) from rfl] at h
  exact Json.noConfusion (Option.some.inj h)

/-- C5 amended: with the shipped rule-based advisor, every /recommend response
carries the full field set (alert_level, should_train, workout, intensity,
duration, message, modifications, recovery_tips, input_metrics); the front-end
sentinel filling itself covers exactly the five required fields, which are present
after post-processing for every advisor result. -/
theorem C5_field_presence_amended :
    ∀ (m : HealthMetrics) (ts rid : String),
      (hasKey "alert_level" (get_recommendation m ts rid) = true
      ∧ hasKey "should_train" (get_recommendation m ts rid) = true
      ∧ hasKey "workout" (get_recommendation m ts rid) = true
      ∧ hasKey "intensity" (get_recommendation m ts rid) = true
      ∧ hasKey "duration" (get_recommendation m ts rid) = true
      ∧ hasKey "message" (get_recommendation m ts rid) = true
      ∧ hasKey "modifications" (get_recommendation m ts rid) = true
      ∧ hasKey "recovery_tips" (get_recommendation m ts rid) = true
      ∧ hasKey "input_metrics" (get_recommendation m ts rid) = true)
      ∧ ∀ (result : Dict) (f : String), f ∈ required_fields →
          hasKey f (normalizeResult result m ts rid) = true := by
  intro m ts rid
  constructor
  · unfold get_recommendation FallbackAdvisor_analyze_health_status
    split_ifs <;> exact ⟨rfl, rfl, rfl, rfl, rfl, rfl, rfl, rfl, rfl⟩
  · intro result f hf
    exact hasKey_normalize_required result m ts rid f hf

theorem C5_field_presence_witness :
    hasKey "alert_level" (get_recommendation m0 "t" "r") = true
    ∧ hasKey "workout" (normalizeResult [] m0 "t" "r") = true :=
  ⟨(C5_field_presence_amended m0 "t" "r").1.1,
   (C5_field_presence_amended m0 "t" "r").2 [] "workout" (by decide)⟩

/-- Filtering a list by a Boolean predicate and by its negation partitions it. -/
theorem length_filter_not_add (p : Dict → Bool) (l : List Dict) :
    (l.filter (fun x => !(p x))).length + (l.filter p).length = l.length := by
  induction l with
  | nil => rfl
  | cons hd tl ih =>
    cases h : p hd with
    | true => simp [List.filter_cons, h]; omega
    | false => simp [List.filter_cons, h]; omega

/-- C9: the /batch endpoint returns one entry per submitted metrics record, in input
order, each entry a function of its own item alone; a failed item's entry carries
the error marker with the echoed inputs while no other entry is affected, and the
reported successful and failed counts always sum to the number of inputs. -/
theorem C9_batch_isolation :
    ∀ (analyze : HealthMetrics → Except String Dict) (ms : List HealthMetrics)
      (ts bid : String),
      (batch_recommendations analyze ms ts bid).results =
        ms.map (fun m => batchItem analyze m ts)
      ∧ (batch_recommendations analyze ms ts bid).results.length = ms.length
      ∧ (batch_recommendations analyze ms ts bid).total_requests = ms.length
      ∧ (batch_recommendations analyze ms ts bid).successful +
          (batch_recommendations analyze ms ts bid).failed = ms.length
      ∧ ∀ (m : HealthMetrics) (e : String), analyze m = Except.error e →
          hasKey "error" (batchItem analyze m ts) = true
          ∧ List.lookup "error" (batchItem analyze m ts) = some (Json.str e) := by
  intro analyze ms ts bid
  refine ⟨rfl, by simp [batch_recommendations], rfl, ?_, ?_⟩
  · have h := length_filter_not_add (fun r => hasKey "error" r)
      (ms.map (fun m => batchItem analyze m ts))
    simpa [batch_recommendations] using h
  · intro m e h
    constructor
    · unfold batchItem
      rw [h]
      rfl
    · unfold batchItem
      rw [h]
      rfl

/-- A metrics record the witness advisor rejects. -/
def m0bad : HealthMetrics :=
  { heart_rate := -1, sleep_hours := 0, stress_level := 0 }

/-- A per-item advisor oracle for the batch witness: it fails on negative heart
rates and otherwise answers with the rule-based fallback. -/
def witAnalyze : HealthMetrics → Except String Dict :=
  fun m =>
    if m.heart_rate < 0 then Except.error "boom"
    else Except.ok (FallbackAdvisor_analyze_health_status m.heart_rate m.sleep_hours
      m.stress_level m.previous_workout)

theorem C9_batch_isolation_witness :
    (batch_recommendations witAnalyze [m0, m0bad] "t" "b").results =
      [m0, m0bad].map (fun m => batchItem witAnalyze m "t")
    ∧ (batch_recommendations witAnalyze [m0, m0bad] "t" "b").successful +
        (batch_recommendations witAnalyze [m0, m0bad] "t" "b").failed = 2
    ∧ hasKey "error" (batchItem witAnalyze m0bad "t") = true :=
  ⟨(C9_batch_isolation witAnalyze [m0, m0bad] "t" "b").1,
   (C9_batch_isolation witAnalyze [m0, m0bad] "t" "b").2.2.2.1,
   ((C9_batch_isolation witAnalyze [m0, m0bad] "t" "b").2.2.2.2 m0bad "boom" rfl).1⟩
